import Mathlib

/-!
Shallow embedding of the LLM-analysis pipeline of `market_analyzer.py`
(class `ExchangeRateAnalyzer`): the retrying LLM client
`_get_deepseek_analysis`, the prompt builders, the fallback-content
generators, the tag extractor `_create_tags_from_content` and the
orchestrator `analyze_market_trend`.

Network I/O is modelled by an oracle: a list of `HttpOutcome` values, one
per HTTP POST issued, in order.  Randomness of the tag sampler is modelled
by a `TagRandom` input.  The wall clock (`datetime.now`) is a `Clock`
record of pre-rendered date/time strings.  Numeric snapshot fields
(Python floats rendered with `:.2f`) are modelled as integers in
hundredths together with an exact decimal renderer.
-/

namespace BlogKRW

/-! ## String primitives modelling the Python builtins used by the source -/

/-- Models Python `str.isspace` for a single character (the source only
feeds it ASCII whitespace and newlines). -/
def pyIsSpace (c : Char) : Bool := c.isWhitespace

/-- Models Python `str.isalnum` for a single character, restricted to the
alphabets occurring in this repository's data: ASCII alphanumerics and
Hangul syllables (Python's Unicode `isalnum` is true on both). -/
def pyIsAlnum (c : Char) : Bool :=
  c.isAlphanum || (0xAC00 ≤ c.toNat && c.toNat ≤ 0xD7A3)

/-- True when `needle` occurs at the very start of `hay` (auxiliary for
the substring test). -/
def matchesAt : List Char → List Char → Bool
  | [], _ => true
  | _ :: _, [] => false
  | n :: ns, h :: hs => n == h && matchesAt ns hs

/-- True when `needle` occurs contiguously anywhere inside `hay`; models
the Python membership test on strings. -/
def hasSub (needle : List Char) : List Char → Bool
  | [] => needle.isEmpty
  | c :: hs => matchesAt needle (c :: hs) || hasSub needle hs

/-- Models the Python substring test `needle in hay`. -/
def strHasSub (needle hay : String) : Bool := hasSub needle.data hay.data

/-- Models the replace call on the result that removes every asterisk. -/
def stripAsterisks (s : String) : String := ⟨s.data.filter (· != '*')⟩

/-- True when the string contains no literal asterisk character. -/
def noStar (s : String) : Bool := s.data.all (· != '*')

/-- Models Python slicing `s[:n]`: the first `n` characters. -/
def takeStr (n : Nat) (s : String) : String := ⟨s.data.take n⟩

/-- Decimal digit character for `d % 10`. -/
def digitChar (d : Nat) : Char :=
  match d % 10 with
  | 0 => '0' | 1 => '1' | 2 => '2' | 3 => '3' | 4 => '4'
  | 5 => '5' | 6 => '6' | 7 => '7' | 8 => '8' | _ => '9'

/-- Digits of `n` in base 10, most significant first (empty for 0); the
first argument is structural fuel, always called with `fuel ≥ n`. -/
def natDecimalAux : Nat → Nat → List Char
  | 0, _ => []
  | fuel + 1, n => if n = 0 then [] else natDecimalAux fuel (n / 10) ++ [digitChar n]

/-- Decimal rendering of a natural number. -/
def natDecimal (n : Nat) : String := if n = 0 then "0" else ⟨natDecimalAux n n⟩

/-- Two-digit zero-padded rendering of `r % 100`. -/
def twoDigits (r : Nat) : String := ⟨[digitChar ((r / 10) % 10), digitChar r]⟩

/-- Models Python `f"{x:.2f}"` where the float `x` is represented exactly
as the integer `v` of hundredths (`x = v / 100`). -/
def formatFix2 (v : Int) : String :=
  (if v < 0 then "-" else "") ++ natDecimal (v.natAbs / 100) ++ "." ++ twoDigits (v.natAbs % 100)

/-- Models Python `f"{x:+.2f}"` (explicit sign) with the same hundredths
representation. -/
def formatSigned2 (v : Int) : String :=
  (if v < 0 then "-" else "+") ++ natDecimal (v.natAbs / 100) ++ "." ++ twoDigits (v.natAbs % 100)

/-- Lexicographic (by code point) order on character lists; models the
comparison Python's `sorted` performs on strings. -/
def lexLe : List Char → List Char → Bool
  | [], _ => true
  | _ :: _, [] => false
  | a :: as, b :: bs =>
      if a.toNat < b.toNat then true
      else if b.toNat < a.toNat then false
      else lexLe as bs

/-- Lexicographic order on strings (the order of Python's `sorted`). -/
def strLe (a b : String) : Prop := lexLe a.data b.data = true

instance strLeDec : DecidableRel strLe :=
  fun a b => inferInstanceAs (Decidable (lexLe a.data b.data = true))

/-! ## The LLM client `_get_deepseek_analysis` -/

/-- Outcome of one HTTP POST to the chat-completion endpoint, as the
environment decides it: a 200 response with the message content `body`, a
non-200 status, a `requests.exceptions.Timeout`, or any other exception. -/
inductive HttpOutcome where
  | ok (body : String)
  | badStatus (code : Nat)
  | timeout
  | exc
deriving DecidableEq

/-- Observable trace of one `_get_deepseek_analysis` call: the returned
string, how many primary attempts ran (loop iterations, each issuing one
primary POST), the backoff sleeps in seconds in order, the total number of
POSTs issued (primary and refinement), and a ghost flag recording whether
the `for` loop was exhausted without returning (the line-343 fall-through). -/
structure CallTrace where
  result : String
  attempts : Nat
  waits : List Nat
  reqs : Nat
  fellThrough : Bool
deriving DecidableEq

/-- Failure string returned after exhausting retries on a non-200 status. -/
def sentinelGeneric : String := "시장 분석 생성에 실패했습니다. 잠시 후 다시 시도해 주세요."

/-- Failure string returned after a timeout on the final attempt. -/
def sentinelTimeout : String := "시장 분석 생성에 실패했습니다. 서버 응답이 지연되고 있습니다."

/-- Failure string returned after a non-timeout exception on the final attempt. -/
def sentinelSystem : String := "시장 분석 생성에 실패했습니다. 시스템 오류가 발생했습니다."

/-- String returned after the retry loop exits without returning. -/
def sentinelExhausted : String := "시장 분석 생성에 실패했습니다. 여러 번 시도했으나 응답을 받지 못했습니다."

/-- The phrase whose presence in the prompt makes the client skip the
refinement call (`"제목을 작성해주세요" in prompt`). -/
def titleMarker : String := "제목을 작성해주세요"

/-- The substring the orchestrator searches for to detect a failed LLM
result (`"분석 내용 생성에 실패" in market_commentary`). -/
def failureMarker : String := "분석 내용 생성에 실패"

/-- The fixed instruction text wrapped around the first result for the
refinement POST (its payload; the refinement outcome itself comes from the
oracle). -/
def refinementPrompt (result : String) : String :=
  "다음 내용을 더 자연스럽고 전문적인 블로그 스타일로 다듬어주세요.\n원문: " ++ result ++
  "\n\n다듬기 요구사항:\n1. 하루 5번 게시되기에 현재 시황에 집중\n2. 하나의 이슈에 대해서만 깊이있게 줄글로 작성하기\n3. 소비자들에게 불필요한 설명이나 내용, 강조표시를 제거하기 (예 : 프롬프트의 내용을 반영했다는 글)\n4. 전문적이지만 조언 금지\n5. 핵심 내용은 유지하면서 자연스러운 흐름으로 재구성\n6. 별표(*)나 다른 특수문자는 절대 사용하지 않음\n"

/-- One pass of the retry loop of `_get_deepseek_analysis`, starting at
0-indexed attempt `idx` with `fuel = maxRetries - idx` iterations left.
Each POST consumes the next oracle entry (a missing entry counts as an
exception).  On a 200 first response the text is asterisk-stripped; a
title prompt returns it at once, otherwise the refinement POST follows:
a 200 refinement returns its stripped text, a non-200 refinement returns
the unrefined text, while a refinement timeout or exception is caught by
the surrounding handlers exactly like a failure of the first POST — sleep
`2 ^ idx` seconds and move to the next attempt, or return the matching
sentinel from the last attempt. -/
def runFrom (prompt : String) (maxRetries : Nat) :
    Nat → Nat → List HttpOutcome → List Nat → Nat → CallTrace
  | 0, idx, _, waitAcc, reqs =>
      { result := sentinelExhausted, attempts := idx, waits := waitAcc, reqs := reqs,
        fellThrough := true }
  | fuel + 1, idx, oracle, waitAcc, reqs =>
      match oracle.headD HttpOutcome.exc, oracle.tail with
      | HttpOutcome.ok body, rest =>
          let result := stripAsterisks body
          if strHasSub titleMarker prompt then
            { result := result, attempts := idx + 1, waits := waitAcc, reqs := reqs + 1,
              fellThrough := false }
          else
            match rest.headD HttpOutcome.exc, rest.tail with
            | HttpOutcome.ok rbody, _ =>
                { result := stripAsterisks rbody, attempts := idx + 1, waits := waitAcc,
                  reqs := reqs + 2, fellThrough := false }
            | HttpOutcome.badStatus _, _ =>
                { result := result, attempts := idx + 1, waits := waitAcc, reqs := reqs + 2,
                  fellThrough := false }
            | HttpOutcome.timeout, rrest =>
                if idx + 1 < maxRetries then
                  runFrom prompt maxRetries fuel (idx + 1) rrest (waitAcc ++ [2 ^ idx]) (reqs + 2)
                else
                  { result := sentinelTimeout, attempts := idx + 1, waits := waitAcc,
                    reqs := reqs + 2, fellThrough := false }
            | HttpOutcome.exc, rrest =>
                if idx + 1 < maxRetries then
                  runFrom prompt maxRetries fuel (idx + 1) rrest (waitAcc ++ [2 ^ idx]) (reqs + 2)
                else
                  { result := sentinelSystem, attempts := idx + 1, waits := waitAcc,
                    reqs := reqs + 2, fellThrough := false }
      | HttpOutcome.badStatus _, rest =>
          if idx + 1 < maxRetries then
            runFrom prompt maxRetries fuel (idx + 1) rest (waitAcc ++ [2 ^ idx]) (reqs + 1)
          else
            { result := sentinelGeneric, attempts := idx + 1, waits := waitAcc,
              reqs := reqs + 1, fellThrough := false }
      | HttpOutcome.timeout, rest =>
          if idx + 1 < maxRetries then
            runFrom prompt maxRetries fuel (idx + 1) rest (waitAcc ++ [2 ^ idx]) (reqs + 1)
          else
            { result := sentinelTimeout, attempts := idx + 1, waits := waitAcc,
              reqs := reqs + 1, fellThrough := false }
      | HttpOutcome.exc, rest =>
          if idx + 1 < maxRetries then
            runFrom prompt maxRetries fuel (idx + 1) rest (waitAcc ++ [2 ^ idx]) (reqs + 1)
          else
            { result := sentinelSystem, attempts := idx + 1, waits := waitAcc,
              reqs := reqs + 1, fellThrough := false }

/-- Models `_get_deepseek_analysis(prompt, max_retries, timeout=60)`.  The
per-request timeout only shapes which `HttpOutcome` the environment
produces, so it does not appear as a parameter. -/
def getDeepseekAnalysis (prompt : String) (maxRetries : Nat) (oracle : List HttpOutcome) :
    CallTrace :=
  runFrom prompt maxRetries maxRetries 0 oracle [] 0

/-! ## Data model -/

/-- A news dict as consumed by the analyzer: `title` is always read,
`content` is read only when the key is present and truthy (`some c` with
`c ≠ ""`). -/
structure NewsItem where
  title : String
  content : Option String
deriving DecidableEq

/-- The `market_data` dict handed to `analyze_market_trend`; each of the
four required keys may be absent.  `Close`, `Change` and `ChangePercent`
are floats modelled as exact hundredths. -/
structure MarketDict where
  close : Option Int
  change : Option Int
  changePercent : Option Int
  date : Option String
deriving DecidableEq

/-- The `prepared_data` dict built after validation: the four keys are
always present, `naver_news` only when the news list was non-empty. -/
structure PreparedData where
  currentRate : Int
  dailyChange : Int
  changeValue : Int
  date : String
  naverNews : Option (List NewsItem)
deriving DecidableEq

/-- The (non-empty) dict optionally passed to `_create_fallback_content`
and `_create_fallback_title`; only these three keys are ever read, and
each may be absent. -/
structure FallbackData where
  currentRate : Option Int
  dailyChange : Option Int
  naverNews : Option (List NewsItem)
deriving DecidableEq

/-- Pre-rendered `datetime.now` strings: KST `%Y-%m-%d` and `%H:%M` (the
commentary prompt), KST `%m/%d` (the title prompt) and the naive local
`%Y-%m-%d` used by the fallback builders. -/
structure Clock where
  kstDate : String
  kstTime : String
  kstMonthDay : String
  localDate : String
deriving DecidableEq

/-- A title/commentary pair as returned by `_create_fallback_content`. -/
structure Content where
  title : String
  commentary : String
deriving DecidableEq

/-- The dict returned by `analyze_market_trend`; `tags := none` models the
absence of the `"tags"` key. -/
structure AnalysisDict where
  title : String
  commentary : String
  tags : Option (List String)
deriving DecidableEq

/-- Outcome of the random sampler inside `_create_tags_from_content`:
either the per-category samples drawn on the normal path
(`random.sample(tag_set, min(2, len(tag_set)))` for each base set, in dict
order), or — when the body raises — the 3-element sample
`random.sample(base_tags, 3)` returned by the `except` branch. -/
inductive TagRandom where
  | normal (baseSamples : List (List String))
  | failure (sample : List String)
deriving DecidableEq

/-! ## Prompt builders -/

/-- Sequential string accumulation, as Python's `template += ...` loop. -/
def concatStr (f : α → String) : List α → String
  | [] => ""
  | a :: l => f a ++ concatStr f l

/-- The lines appended for one news item: `"\n- {title}"` and, when the
content is present and truthy, `"\n  {content[:100]}..."`. -/
def newsLine (n : NewsItem) : String :=
  "\n- " ++ n.title ++
    (match n.content with
     | some c => if c = "" then "" else "\n  " ++ takeStr 100 c ++ "..."
     | none => "")

/-- All news lines of the commentary prompt, in list order. -/
def newsSection (ns : List NewsItem) : String := concatStr newsLine ns

/-- The news part of the commentary prompt: the Naver block when
`naver_news` is present and non-empty, the placeholder line otherwise. -/
def newsBlock : Option (List NewsItem) → String
  | some ns => if ns.isEmpty then "\n- 오늘의 주요 뉴스가 없습니다." else "\n네이버 금융 뉴스:" ++ newsSection ns
  | none => "\n- 오늘의 주요 뉴스가 없습니다."

/-- Head of the commentary prompt: instruction line with KST date/time and
the rate block. -/
def commentaryHead (kstDate kstTime : String) (d : PreparedData) : String :=
  "다음 원달러 환율 데이터를 바탕으로 " ++ kstDate ++ " " ++ kstTime ++
  " KST 기준 환율 동향을 분석해주세요.\n\n[환율 정보]\n현재 환율: " ++ formatFix2 d.currentRate ++
  "원\n전일 대비: " ++ formatSigned2 d.dailyChange ++ "%\n\n[주요 뉴스]"

/-- The fixed requirements text appended at the end of the commentary
prompt. -/
def commentaryReqTail : String :=
  "\n\n작성 요구사항:\n1. 환율 동향 분석 (300자 이상)\n   - 오늘의 원달러 환율 움직임을 상세히 설명\n   - 전일 대비 변동폭과 그 의미를 깊이 있게 분석\n   - 주요 변동 요인을 상세히 설명\n   - 장중 변동폭과 특징적인 움직임 설명\n\n2. 뉴스 기반 분석 (300자 이상)\n   - 주요 뉴스 내용을 상세히 분석\n   - 각 뉴스가 환율에 미친 영향 설명\n   - 시장 참여자들의 반응과 심리 분석\n   - 관련 산업 및 기업에 미치는 영향\n\n3. 실무적 시사점 (300자 이상)\n   - 기업 관점의 시사점 상세 분석\n   - 개인 투자자 관점의 시사점 상세 분석\n   - 단기적 대응 방안 제시\n   - 중장기 전망과 주의점\n\n작성 스타일:\n- 전체 분량: 1,500자 이상\n- 문단별 소제목 포함\n- 전문용어는 반드시 쉽게 풀어서 설명\n- 일반 직장인도 이해하기 쉽게 작성\n- 객관적이고 중립적인 톤 유지\n- 구체적인 수치와 팩트 중심으로 작성\n\n참고사항:\n- 투자 조언이나 확정적 전망은 피할 것\n- 근거 없는 추측성 내용 배제\n- 정확한 수치와 팩트 중심으로 작성\n"

/-- Models `_create_market_commentary_prompt`. -/
def createMarketCommentaryPrompt (kstDate kstTime : String) (d : PreparedData) : String :=
  commentaryHead kstDate kstTime d ++ newsBlock d.naverNews ++ commentaryReqTail

/-- Models `_create_title_from_commentary_prompt`; it contains the
`titleMarker` phrase in its first line, which is what the client's
request-type sniffing keys on. -/
def createTitleFromCommentaryPrompt (kstMonthDay kstTime analysis : String) : String :=
  "다음 환율 분석을 바탕으로 블로그 포스팅 제목을 작성해주세요.\n\n분석 내용: " ++ analysis ++
  "\n\n제목 요구사항:\n1. 필수 포함 요소\n   - '[" ++ kstMonthDay ++ " " ++ kstTime ++
  " 환율분석]' 접두어\n   - 날짜와 KST시간 표시 (" ++ kstMonthDay ++ " " ++ kstTime ++
  " KST)\n   - 핵심 환율 동향 또는 주요 영향 요인\n\n2. 작성 스타일\n   - 전체 길이: 30자 내외\n   - 명확하고 간결한 표현\n   - 구체적인 수치나 데이터 포함\n   - 객관적이고 중립적인 톤 유지\n\n3. 제목 예시\n- [" ++
  kstMonthDay ++ " " ++ kstTime ++ " 환율분석] KST 원달러 1,456원, 美 관세 유예에 하락세\n- [" ++
  kstMonthDay ++ " " ++ kstTime ++ " 환율분석]  환율 27.7원↓…수출기업 달러매도 증가\n- [" ++
  kstMonthDay ++ " " ++ kstTime ++ " 환율분석] 원달러 1.85% 급락…美 관세 유예 영향\n\n4. 유의사항\n- 제목 선정이유 반드시 제거하기 (예 : 프롬프트의 내용을 반영했다는 글)\n- 제목은 반드시 하나만 출력하기\n"

/-! ## Fallback builders -/

/-- Models `_create_fallback_content(data=None)`: with data, a dated title
and a commentary template filled from whichever of the three read keys are
present; without data, the generic failure content. -/
def createFallbackContent (currentDate : String) : Option FallbackData → Content
  | some d =>
      let c0 := "오늘의 시장 동향을 분석해보겠습니다.\n\n주요 시장 지표:\n"
      let c1 := c0 ++ (match d.currentRate with
        | some r => "\n- 현재 환율: " ++ formatFix2 r ++ "원\n"
        | none => "")
      let c2 := c1 ++ (match d.dailyChange with
        | some ch => "\n- 전일 대비 변동폭: " ++ formatSigned2 ch ++ "%\n"
        | none => "")
      let c3 := c2 ++ (match d.naverNews with
        | some ns => "\n주요 시장 뉴스:\n" ++ concatStr (fun n => "- " ++ n.title ++ "\n") ns
        | none => "")
      { title := currentDate ++ " 글로벌 시장 동향", commentary := c3 }
  | none =>
      { title := "오늘의 시장 동향 분석 - " ++ currentDate,
        commentary := "시스템 오류로 인해 분석을 완료하지 못했습니다. 잠시 후 다시 시도해 주시기 바랍니다." }

/-- Models `_create_fallback_title`. -/
def createFallbackTitle (currentDate : String) (d : FallbackData) : String :=
  if d.currentRate.isSome && d.dailyChange.isSome then
    currentDate ++ " 글로벌 시장: 환율 동향 분석"
  else
    currentDate ++ " 글로벌 시장 동향"

/-! ## Tag extractor `_create_tags_from_content` -/

/-- Models the genexp joining every character of the word that satisfies
`c.isalnum() or c.isspace()`. -/
def cleanWord (w : String) : String := ⟨w.data.filter (fun c => pyIsAlnum c || pyIsSpace c)⟩

/-- Worker for whitespace splitting (Python `str.split()` with no
separator: runs of whitespace separate tokens, empties dropped). -/
def splitWsAux : List Char → List Char → List String
  | [], acc => if acc.isEmpty then [] else [⟨acc.reverse⟩]
  | c :: cs, acc =>
      if pyIsSpace c then
        if acc.isEmpty then splitWsAux cs [] else ⟨acc.reverse⟩ :: splitWsAux cs []
      else splitWsAux cs (c :: acc)

/-- Models Python `s.split()`. -/
def pySplitWs (s : String) : List String := splitWsAux s.data []

/-- Worker for newline splitting (Python `s.split('\n')`, keeping empty
pieces). -/
def splitLinesAux : List Char → List Char → List String
  | [], acc => [⟨acc.reverse⟩]
  | c :: cs, acc =>
      if c = '\n' then ⟨acc.reverse⟩ :: splitLinesAux cs [] else splitLinesAux cs (c :: acc)

/-- Models Python `s.split('\n')`. -/
def pySplitLines (s : String) : List String := splitLinesAux s.data []

/-- Models Python `s.strip()`. -/
def pyStrip (s : String) : String :=
  ⟨((s.data.dropWhile pyIsSpace).reverse.dropWhile pyIsSpace).reverse⟩

/-- Models Python `s.isupper()` on the ASCII/Hangul alphabet: at least one
cased character and no lowercase one. -/
def pyIsUpper (s : String) : Bool :=
  s.data.any (fun c => c.isUpper) && s.data.all (fun c => !c.isLower)

/-- The seven base tag sets, in dict insertion order. -/
def baseTagSets : List (List String) :=
  [["주식", "주식투자", "주식시장", "주식분석", "주식공부"],
   ["시장분석", "시장동향", "시장전망", "시장이슈", "시장리뷰"],
   ["투자", "투자전략", "투자분석", "투자이슈", "투자전망"],
   ["경제", "경제동향", "경제이슈", "경제전망", "글로벌경제"],
   ["미국주식", "미국시장", "미국경제", "나스닥", "S&P500", "다우존스"],
   ["거시경제", "금리", "인플레이션", "고용", "GDP", "무역", "관세", "정책"],
   ["글로벌시장", "글로벌경제", "국제무역", "환율", "원자재", "에너지"]]

/-- The ten sector keyword sets, in dict insertion order. -/
def sectorSets : List (List String) :=
  [["테크", "기술", "AI", "반도체", "소프트웨어", "하드웨어", "클라우드", "메타버스"],
   ["금융", "은행", "증권", "보험", "핀테크", "디지털금융"],
   ["에너지", "석유", "가스", "재생에너지", "태양광", "풍력", "원자력"],
   ["소비재", "유통", "식품", "의류", "화장품", "패션", "소매"],
   ["헬스케어", "바이오", "제약", "의료", "건강", "의료기기"],
   ["산업재", "제조", "자동차", "항공", "방위", "기계", "건설"],
   ["유틸리티", "전기", "가스", "수도", "인프라"],
   ["부동산", "REITs", "상업용부동산", "주거용부동산"],
   ["통신", "텔레콤", "5G", "인터넷", "미디어", "엔터테인먼트"],
   ["재료", "화학", "철강", "비철금속", "플라스틱"]]

/-- The macroeconomic indicator substrings scanned with priority. -/
def macroIndicators : List String :=
  ["금리", "인플레이션", "고용", "GDP", "소비자물가", "생산자물가",
   "무역", "관세", "정책", "환율", "원자재", "에너지", "글로벌경제"]

/-- The default pool the `except` branch samples 3 tags from. -/
def defaultTagPool : List String :=
  ["주식", "시장분석", "투자", "경제", "미국주식", "거시경제", "글로벌경제"]

/-- Keywords taken from the title: cleaned words of length > 1. -/
def titleKeywords (title : String) : List String :=
  ((pySplitWs title).map cleanWord).filter (fun w => decide (1 < w.length))

/-- Keywords taken from one content line: the cleaned key before the first
colon when the line has one, else the cleaned words of a non-blank line. -/
def lineKeywords (line : String) : List String :=
  if line.data.contains ':' then
    let ck := cleanWord (pyStrip ⟨line.data.takeWhile (· != ':')⟩)
    if 1 < ck.length then [ck] else []
  else if 0 < (pyStrip line).length then
    ((pySplitWs (pyStrip line)).map cleanWord).filter (fun w => decide (1 < w.length))
  else []

/-- Keywords taken from the whole content. -/
def contentKeywords (content : String) : List String :=
  ((pySplitLines content).map lineKeywords).flatten

/-- The macro indicators found as substrings of any keyword, in indicator
order. -/
def macroKeywords (allWords : List String) : List String :=
  macroIndicators.filter (fun ind => allWords.any (fun w => strHasSub ind w))

/-- Per word and per sector set, the first indicator that is a substring
of the word (the inner loop's `break`). -/
def sectorKeywords (allWords : List String) : List String :=
  (allWords.map (fun w => sectorSets.filterMap (fun inds => inds.find? (fun ind => strHasSub ind w)))).flatten

/-- The normal (non-raising) path of `_create_tags_from_content`:
`baseSamples` is the list of per-base-set sampler outcomes. -/
def createTagsFromContent (title content : String) (baseSamples : List (List String)) :
    List String :=
  let baseTags := baseSamples.flatten
  let allW := titleKeywords title ++ contentKeywords content
  let macs := macroKeywords allW
  let syms := allW.filter (fun w => pyIsUpper w && decide (w.length ≤ 5))
  let secs := sectorKeywords allW
  let finalTags :=
    macs ++ ((baseTags ++ syms ++ secs).map cleanWord).filter (fun t => decide (1 < t.length))
  (List.insertionSort strLe finalTags.dedup).take 15

/-- The whole tag extractor: the normal path with its sampler outcome, or
the `except` branch which returns the 3-tag random sample as drawn. -/
def computeTags (title content : String) : TagRandom → List String
  | TagRandom.normal bs => createTagsFromContent title content bs
  | TagRandom.failure s => s

/-- A list is a possible outcome of `random.sample(defaultTagPool, 3)`:
three distinct members of the pool (in any order). -/
def validDefaultSample (s : List String) : Bool :=
  decide (s.length = 3 ∧ s.Nodup ∧ ∀ x ∈ s, x ∈ defaultTagPool)

/-! ## The orchestrator `analyze_market_trend` -/

/-- The validation `all(key in market_data for key in [...])`. -/
def marketDataValid (md : MarketDict) : Bool :=
  md.close.isSome && md.change.isSome && md.changePercent.isSome && md.date.isSome

/-- The `prepared_data` dict built from a validated snapshot (`getD`
defaults are never read on the paths that build this). -/
def preparedOf (md : MarketDict) (news : List NewsItem) : PreparedData :=
  { currentRate := md.close.getD 0
    dailyChange := md.changePercent.getD 0
    changeValue := md.change.getD 0
    date := md.date.getD ""
    naverNews := if news.isEmpty then none else some news }

/-- The view of `prepared_data` that the fallback builders read. -/
def fallbackDataOf (p : PreparedData) : FallbackData :=
  { currentRate := some p.currentRate
    dailyChange := some p.dailyChange
    naverNews := p.naverNews }

/-- The commentary prompt `analyze_market_trend` sends to the client. -/
def commentaryPromptOf (clock : Clock) (md : MarketDict) (news : List NewsItem) : String :=
  createMarketCommentaryPrompt clock.kstDate clock.kstTime (preparedOf md news)

/-- The trace of the commentary LLM call (default `max_retries=3`). -/
def commentaryCallOf (clock : Clock) (md : MarketDict) (news : List NewsItem)
    (oracle : List HttpOutcome) : CallTrace :=
  getDeepseekAnalysis (commentaryPromptOf clock md news) 3 oracle

/-- Models `analyze_market_trend(market_data, news)`.  The title call
consumes the oracle entries left over by the commentary call. -/
def analyzeMarketTrend (clock : Clock) (md : MarketDict) (news : List NewsItem)
    (oracle : List HttpOutcome) (tagRand : TagRandom) : AnalysisDict :=
  if marketDataValid md then
    let prepared := preparedOf md news
    let t1 := commentaryCallOf clock md news oracle
    let commentary := t1.result
    if commentary == "" || strHasSub failureMarker commentary then
      let fb := createFallbackContent clock.localDate (some (fallbackDataOf prepared))
      { title := fb.title, commentary := fb.commentary, tags := none }
    else
      let t2 := getDeepseekAnalysis
        (createTitleFromCommentaryPrompt clock.kstMonthDay clock.kstTime commentary) 3
        (oracle.drop t1.reqs)
      let title0 := t2.result
      let title :=
        if title0 == "" || strHasSub failureMarker title0 then
          createFallbackTitle clock.localDate (fallbackDataOf prepared)
        else title0
      { title := title, commentary := commentary,
        tags := some (computeTags title commentary tagRand) }
  else
    let fb := createFallbackContent clock.localDate none
    { title := fb.title, commentary := fb.commentary, tags := none }

/-! ## Concrete inputs used by the closed theorems -/

/-- A fixed clock reading (2024-05-01 09:00 KST). -/
def clockEx : Clock :=
  { kstDate := "2024-05-01", kstTime := "09:00", kstMonthDay := "05/01",
    localDate := "2024-05-01" }

/-- A well-formed snapshot: 1456.20 won, -12.30 won, -0.84 %. -/
def mdEx : MarketDict :=
  { close := some 145620, change := some (-1230), changePercent := some (-84),
    date := some "2024-05-01" }

/-- A snapshot with three of the four required keys (no `Date`). -/
def mdNoDate : MarketDict :=
  { close := some 145620, change := some (-1230), changePercent := some (-84), date := none }

/-- A snapshot with none of the required keys. -/
def mdEmpty : MarketDict := { close := none, change := none, changePercent := none, date := none }

/-- Six news items; a 5-item cap would drop the sixth. -/
def newsC8 : List NewsItem :=
  [{ title := "뉴스 하나", content := none },
   { title := "뉴스 둘", content := none },
   { title := "뉴스 셋", content := none },
   { title := "뉴스 넷", content := none },
   { title := "뉴스 다섯", content := none },
   { title := "미 연준 발표", content := some "연준이 기준금리를 동결했다는 소식에 시장이 반응했다" }]

/-- A news item whose title carries an asterisk. -/
def newsStar : List NewsItem := [{ title := "환율 급등*경고", content := none }]

/-- Oracle for the C1 failing input: HTTP 500 on all three commentary
attempts, then a 200 for the title call. -/
def oracleC1 : List HttpOutcome :=
  [HttpOutcome.badStatus 500, HttpOutcome.badStatus 500, HttpOutcome.badStatus 500,
   HttpOutcome.ok "T1"]

/-! ## Helper lemmas: string append, substring search, asterisk freedom -/

theorem strData_append (s t : String) : (s ++ t).data = s.data ++ t.data := by
  cases s; cases t; rfl

theorem str_ne_empty_of_right (s t : String) (h : t ≠ "") : s ++ t ≠ "" := by
  intro hc
  apply h
  have h2 : (s ++ t).data = [] := by rw [hc]
  rw [strData_append] at h2
  exact String.ext (List.append_eq_nil.mp h2).2

theorem str_ne_empty_of_left (s t : String) (h : s ≠ "") : s ++ t ≠ "" := by
  intro hc
  apply h
  have h2 : (s ++ t).data = [] := by rw [hc]
  rw [strData_append] at h2
  exact String.ext (List.append_eq_nil.mp h2).1

theorem str_append_assoc (a b c : String) : a ++ b ++ c = a ++ (b ++ c) := by
  apply String.ext
  rw [strData_append, strData_append, strData_append, strData_append, List.append_assoc]

theorem str_append_empty (s : String) : s ++ "" = s := by
  apply String.ext
  rw [strData_append]
  exact List.append_nil _

theorem matchesAt_self_app : ∀ n t : List Char, matchesAt n (n ++ t) = true := by
  intro n
  induction n with
  | nil => intro t; rfl
  | cons x xs ih => intro t; simp [matchesAt, ih]

theorem matchesAt_extend : ∀ n h t : List Char, matchesAt n h = true → matchesAt n (h ++ t) = true := by
  intro n
  induction n with
  | nil => intros; rfl
  | cons x xs ih =>
    intro h t hm
    cases h with
    | nil => simp [matchesAt] at hm
    | cons y ys =>
      simp only [matchesAt, Bool.and_eq_true] at hm ⊢
      exact ⟨hm.1, ih ys t hm.2⟩

theorem hasSub_empty_needle : ∀ h : List Char, hasSub [] h = true := by
  intro h
  cases h with
  | nil => rfl
  | cons c hs => simp [hasSub, matchesAt]

theorem hasSub_of_matchesAt (n : List Char) :
    ∀ h : List Char, matchesAt n h = true → hasSub n h = true := by
  intro h hm
  cases h with
  | nil =>
    cases n with
    | nil => rfl
    | cons x xs => simp [matchesAt] at hm
  | cons c hs => simp [hasSub, hm]

theorem hasSub_cons_of (n : List Char) (c : Char) (h : List Char)
    (hs : hasSub n h = true) : hasSub n (c :: h) = true := by
  simp [hasSub, hs]

theorem hasSub_app_left (n : List Char) :
    ∀ a h : List Char, hasSub n h = true → hasSub n (a ++ h) = true := by
  intro a
  induction a with
  | nil => intro h hs; exact hs
  | cons c cs ih => intro h hs; exact hasSub_cons_of n c (cs ++ h) (ih h hs)

theorem hasSub_app_right (n : List Char) :
    ∀ h t : List Char, hasSub n h = true → hasSub n (h ++ t) = true := by
  intro h
  induction h with
  | nil =>
    intro t hs
    have : n = [] := by
      cases n with
      | nil => rfl
      | cons x xs => simp [hasSub, List.isEmpty] at hs
    rw [this]
    exact hasSub_empty_needle t
  | cons c hs ih =>
    intro t hsub
    simp only [hasSub, Bool.or_eq_true] at hsub
    rcases hsub with hm | hrest
    · exact hasSub_of_matchesAt n _ (matchesAt_extend n (c :: hs) t hm)
    · exact hasSub_cons_of n c (hs ++ t) (ih t hrest)

theorem hasSub_self_app (n t : List Char) : hasSub n (n ++ t) = true :=
  hasSub_of_matchesAt n (n ++ t) (matchesAt_self_app n t)

theorem strHasSub_app_left (s n t : String) (h : strHasSub n t = true) :
    strHasSub n (s ++ t) = true := by
  unfold strHasSub at h ⊢
  rw [strData_append]
  exact hasSub_app_left n.data s.data t.data h

theorem strHasSub_app_right (n s t : String) (h : strHasSub n s = true) :
    strHasSub n (s ++ t) = true := by
  unfold strHasSub at h ⊢
  rw [strData_append]
  exact hasSub_app_right n.data s.data t.data h

theorem strHasSub_self (n : String) : strHasSub n n = true := by
  unfold strHasSub
  have := hasSub_self_app n.data []
  rwa [List.append_nil] at this

theorem strHasSub_sandwich (x n y : String) : strHasSub n (x ++ n ++ y) = true := by
  rw [str_append_assoc]
  exact strHasSub_app_left x n (n ++ y) (strHasSub_app_right n n y (strHasSub_self n))

theorem noStar_append (s t : String) : noStar (s ++ t) = (noStar s && noStar t) := by
  unfold noStar
  rw [strData_append, List.all_append]

theorem noStar_strip (s : String) : noStar (stripAsterisks s) = true := by
  simp only [noStar, stripAsterisks, List.all_eq_true]
  intro c hc
  exact (List.mem_filter.mp hc).2

theorem digitChar_ne_star (d : Nat) : (digitChar d != '*') = true := by
  unfold digitChar
  split <;> decide

theorem noStar_natDecimalAux : ∀ fuel n : Nat, (natDecimalAux fuel n).all (· != '*') = true := by
  intro fuel
  induction fuel with
  | zero => intro n; rfl
  | succ k ih =>
    intro n
    simp only [natDecimalAux]
    split
    · rfl
    · rw [List.all_append]
      simp [ih (n / 10), digitChar_ne_star n]

theorem noStar_natDecimal (n : Nat) : noStar (natDecimal n) = true := by
  unfold natDecimal
  split
  · decide
  · exact noStar_natDecimalAux n n

theorem noStar_twoDigits (r : Nat) : noStar (twoDigits r) = true := by
  simp [noStar, twoDigits, digitChar_ne_star]

theorem noStar_formatFix2 (v : Int) : noStar (formatFix2 v) = true := by
  unfold formatFix2
  rw [noStar_append, noStar_append, noStar_append]
  simp [noStar_natDecimal, noStar_twoDigits]
  exact ⟨by split <;> decide, by decide⟩

theorem noStar_formatSigned2 (v : Int) : noStar (formatSigned2 v) = true := by
  unfold formatSigned2
  rw [noStar_append, noStar_append, noStar_append]
  simp [noStar_natDecimal, noStar_twoDigits]
  exact ⟨by split <;> decide, by decide⟩

/-! ## Helper lemmas: the lexicographic order used by the tag sort -/

theorem lexLe_total : ∀ a b : List Char, lexLe a b = true ∨ lexLe b a = true := by
  intro a
  induction a with
  | nil => intro b; left; rfl
  | cons x xs ih =>
    intro b
    cases b with
    | nil => right; rfl
    | cons y ys =>
      by_cases h1 : x.toNat < y.toNat
      · left; simp [lexLe, h1]
      · by_cases h2 : y.toNat < x.toNat
        · right; simp [lexLe, h2]
        · rcases ih ys with h | h
          · left; simp [lexLe, h1, h2, h]
          · right; simp [lexLe, h1, h2, h]

theorem lexLe_trans :
    ∀ a b c : List Char, lexLe a b = true → lexLe b c = true → lexLe a c = true := by
  intro a
  induction a with
  | nil => intro b c _ _; rfl
  | cons x xs ih =>
    intro b c hab hbc
    cases b with
    | nil => simp [lexLe] at hab
    | cons y ys =>
      cases c with
      | nil => simp [lexLe] at hbc
      | cons z zs =>
        have hab' : x.toNat < y.toNat ∨ (x.toNat = y.toNat ∧ lexLe xs ys = true) := by
          by_cases h1 : x.toNat < y.toNat
          · exact Or.inl h1
          · by_cases h2 : y.toNat < x.toNat
            · simp [lexLe, h1, h2] at hab
            · exact Or.inr ⟨by omega, by simpa [lexLe, h1, h2] using hab⟩
        have hbc' : y.toNat < z.toNat ∨ (y.toNat = z.toNat ∧ lexLe ys zs = true) := by
          by_cases h1 : y.toNat < z.toNat
          · exact Or.inl h1
          · by_cases h2 : z.toNat < y.toNat
            · simp [lexLe, h1, h2] at hbc
            · exact Or.inr ⟨by omega, by simpa [lexLe, h1, h2] using hbc⟩
        rcases hab' with h | ⟨hxy, hxys⟩ <;> rcases hbc' with h' | ⟨hyz, hyzs⟩
        · simp [lexLe, show x.toNat < z.toNat by omega]
        · simp [lexLe, show x.toNat < z.toNat by omega]
        · simp [lexLe, show x.toNat < z.toNat by omega]
        · simp only [lexLe, show ¬ x.toNat < z.toNat by omega, if_false,
            show ¬ z.toNat < x.toNat by omega]
          exact ih ys zs hxys hyzs

/-! ## Helper lemmas: invariants of the retry loop -/

theorem runFrom_attempts_ge (prompt : String) (m : Nat) :
    ∀ fuel idx oracle waitAcc reqs,
      idx ≤ (runFrom prompt m fuel idx oracle waitAcc reqs).attempts := by
  intro fuel
  induction fuel with
  | zero => intro idx oracle waitAcc reqs; exact Nat.le_refl idx
  | succ n ih =>
    intro idx oracle waitAcc reqs
    simp only [runFrom]
    repeat' split
    all_goals first
      | exact Nat.le_succ idx
      | exact Nat.le_of_succ_le (ih (idx + 1) _ _ _)

theorem runFrom_no_fall (prompt : String) (m : Nat) :
    ∀ fuel idx oracle waitAcc reqs, fuel + idx = m → idx < m →
      (runFrom prompt m fuel idx oracle waitAcc reqs).fellThrough = false := by
  intro fuel
  induction fuel with
  | zero => intro idx oracle waitAcc reqs hsum hlt; omega
  | succ n ih =>
    intro idx oracle waitAcc reqs hsum hlt
    simp only [runFrom]
    repeat' split
    all_goals first
      | rfl
      | exact ih (idx + 1) _ _ _ (by omega) (by assumption)

theorem runFrom_result_noStar (prompt : String) (m : Nat) :
    ∀ fuel idx oracle waitAcc reqs,
      noStar (runFrom prompt m fuel idx oracle waitAcc reqs).result = true := by
  intro fuel
  induction fuel with
  | zero =>
    intro idx oracle waitAcc reqs
    show noStar sentinelExhausted = true
    decide
  | succ n ih =>
    intro idx oracle waitAcc reqs
    simp only [runFrom]
    repeat' split
    all_goals first
      | exact ih (idx + 1) _ _ _
      | exact noStar_strip _
      | (show noStar sentinelGeneric = true; decide)

/-- Every string `_get_deepseek_analysis` can return is asterisk-free:
200 results are stripped and the sentinels contain no asterisk. -/
theorem result_noStar (prompt : String) (m : Nat) (oracle : List HttpOutcome) :
    noStar (getDeepseekAnalysis prompt m oracle).result = true :=
  runFrom_result_noStar prompt m m 0 oracle [] 0

theorem runFrom_waits (prompt : String) (m : Nat) :
    ∀ fuel idx oracle reqs, fuel + idx = m → (idx < m ∨ m = 0) →
      (runFrom prompt m fuel idx oracle ((List.range idx).map (fun i => 2 ^ i)) reqs).attempts ≤ m
      ∧ (runFrom prompt m fuel idx oracle ((List.range idx).map (fun i => 2 ^ i)) reqs).waits
        = (List.range
            ((runFrom prompt m fuel idx oracle ((List.range idx).map (fun i => 2 ^ i)) reqs).attempts
              - 1)).map (fun i => 2 ^ i) := by
  intro fuel
  induction fuel with
  | zero =>
    intro idx oracle reqs hsum hside
    have hm : m = 0 := by rcases hside with h | h <;> omega
    have hidx : idx = 0 := by omega
    subst hm
    subst hidx
    exact ⟨Nat.le_refl 0, rfl⟩
  | succ n ih =>
    intro idx oracle reqs hsum hside
    have hlt : idx < m := by omega
    have hacc : (List.range idx).map (fun i => 2 ^ i) ++ [2 ^ idx]
        = (List.range (idx + 1)).map (fun i => 2 ^ i) := by
      rw [List.range_succ, List.map_append]
      simp
    simp only [runFrom]
    repeat' split
    all_goals
      first
        | (rw [hacc]; exact ih (idx + 1) _ _ (by omega) (Or.inl (by assumption)))
        | exact ⟨hlt, by simp⟩

/-! ## Helper lemmas: fallback content -/

theorem fallbackTitle_ne (cd : String) (d : Option FallbackData) :
    (createFallbackContent cd d).title ≠ "" := by
  cases d with
  | none => exact str_ne_empty_of_left _ _ (by decide)
  | some fd => exact str_ne_empty_of_right _ _ (by decide)

theorem fallbackCommentary_ne (cd : String) (d : Option FallbackData) :
    (createFallbackContent cd d).commentary ≠ "" := by
  cases d with
  | none =>
    show ("시스템 오류로 인해 분석을 완료하지 못했습니다. 잠시 후 다시 시도해 주시기 바랍니다." : String) ≠ ""
    decide
  | some fd =>
    simp only [createFallbackContent]
    apply str_ne_empty_of_left
    apply str_ne_empty_of_left
    apply str_ne_empty_of_left
    decide

theorem createFallbackTitle_ne (cd : String) (d : FallbackData) :
    createFallbackTitle cd d ≠ "" := by
  unfold createFallbackTitle
  split <;> exact str_ne_empty_of_right _ _ (by decide)

theorem noStar_newsList (ns : List NewsItem) (h : ∀ n ∈ ns, noStar n.title = true) :
    noStar (concatStr (fun n => "- " ++ n.title ++ "\n") ns) = true := by
  induction ns with
  | nil => decide
  | cons a l ih =>
    show noStar (("- " ++ a.title ++ "\n") ++ concatStr (fun n => "- " ++ n.title ++ "\n") l) = true
    rw [noStar_append, noStar_append, noStar_append]
    simp only [Bool.and_eq_true]
    exact ⟨⟨⟨by decide, h a (List.mem_cons_self a l)⟩, by decide⟩,
      ih (fun n hn => h n (List.mem_cons_of_mem a hn))⟩

theorem noStar_fallbackContent_title (cd : String) (d : Option FallbackData)
    (hd : noStar cd = true) : noStar (createFallbackContent cd d).title = true := by
  cases d with
  | none =>
    show noStar ("오늘의 시장 동향 분석 - " ++ cd) = true
    rw [noStar_append, Bool.and_eq_true]
    exact ⟨by decide, hd⟩
  | some fd =>
    show noStar (cd ++ " 글로벌 시장 동향") = true
    rw [noStar_append, Bool.and_eq_true]
    exact ⟨hd, by decide⟩

theorem noStar_fallbackContent_commentary (cd : String) (d : Option FallbackData)
    (hn : ∀ fd, d = some fd → ∀ ns, fd.naverNews = some ns → ∀ n ∈ ns, noStar n.title = true) :
    noStar (createFallbackContent cd d).commentary = true := by
  cases d with
  | none =>
    show noStar "시스템 오류로 인해 분석을 완료하지 못했습니다. 잠시 후 다시 시도해 주시기 바랍니다." = true
    decide
  | some fd =>
    simp only [createFallbackContent]
    rw [noStar_append, noStar_append, noStar_append]
    simp only [Bool.and_eq_true]
    refine ⟨⟨⟨by decide, ?_⟩, ?_⟩, ?_⟩
    · cases hr : fd.currentRate with
      | none => decide
      | some r =>
        rw [noStar_append, noStar_append]
        simp [noStar_formatFix2]
        exact ⟨by decide, by decide⟩
    · cases hc : fd.dailyChange with
      | none => decide
      | some ch =>
        rw [noStar_append, noStar_append]
        simp [noStar_formatSigned2]
        exact ⟨by decide, by decide⟩
    · cases hnw : fd.naverNews with
      | none => decide
      | some ns =>
        rw [noStar_append]
        simp only [Bool.and_eq_true]
        exact ⟨by decide, noStar_newsList ns (hn fd rfl ns hnw)⟩

theorem noStar_createFallbackTitle (cd : String) (d : FallbackData)
    (hd : noStar cd = true) : noStar (createFallbackTitle cd d) = true := by
  unfold createFallbackTitle
  split <;> (rw [noStar_append, Bool.and_eq_true]; exact ⟨hd, by decide⟩)

/-! ## Helper lemmas: news items inside the commentary prompt -/

theorem title_in_newsLine (n : NewsItem) : strHasSub n.title (newsLine n) = true :=
  strHasSub_sandwich "\n- " n.title _

theorem excerpt_in_newsLine (n : NewsItem) (c : String) (hc : n.content = some c)
    (hne : c ≠ "") : strHasSub (takeStr 100 c ++ "...") (newsLine n) = true := by
  have h1 : newsLine n = "\n- " ++ n.title ++ ("\n  " ++ takeStr 100 c ++ "...") := by
    unfold newsLine
    rw [hc]
    simp [hne]
  rw [h1]
  apply strHasSub_app_left
  rw [str_append_assoc]
  apply strHasSub_app_left
  exact strHasSub_self _

theorem sub_newsSection (needle : String) (item : NewsItem) :
    ∀ ns : List NewsItem, item ∈ ns → strHasSub needle (newsLine item) = true →
      strHasSub needle (newsSection ns) = true := by
  intro ns
  induction ns with
  | nil => intro h; cases h
  | cons a l ih =>
    intro hmem hline
    show strHasSub needle (newsLine a ++ newsSection l) = true
    rcases List.mem_cons.mp hmem with h | hmem'
    · rw [h] at hline
      exact strHasSub_app_right _ _ _ hline
    · exact strHasSub_app_left _ _ _ (ih hmem' hline)

theorem sub_commentaryPromptOf (clock : Clock) (md : MarketDict) (news : List NewsItem)
    (needle : String) (item : NewsItem) (hmem : item ∈ news)
    (hline : strHasSub needle (newsLine item) = true) :
    strHasSub needle (commentaryPromptOf clock md news) = true := by
  have hne : news.isEmpty = false := by
    cases news with
    | nil => cases hmem
    | cons a l => rfl
  simp only [commentaryPromptOf, createMarketCommentaryPrompt, preparedOf, newsBlock, hne,
    Bool.false_eq_true, if_false]
  apply strHasSub_app_right
  apply strHasSub_app_left
  apply strHasSub_app_left
  exact sub_newsSection needle item news hmem hline

theorem runFrom_attempts_ge_succ (prompt : String) (m : Nat) :
    ∀ fuel idx oracle waitAcc reqs,
      idx + 1 ≤ (runFrom prompt m (fuel + 1) idx oracle waitAcc reqs).attempts := by
  intro fuel idx oracle waitAcc reqs
  simp only [runFrom]
  repeat' split
  all_goals first
    | exact Nat.le_refl _
    | exact runFrom_attempts_ge prompt m fuel (idx + 1) _ _ _

/-! ## Claim theorems -/

/-- Claim C10: with `max_retries = 0` the loop body of
`_get_deepseek_analysis` never runs — no HTTP request is issued — and the
fourth sentinel (line 343) is returned; that sentinel is distinct from
the three in-loop failure strings, and for `max_retries ≥ 1` the
fall-through is unreachable because every iteration either returns or
proceeds to the next one. -/
theorem c10_zero_retries :
    (∀ prompt oracle, getDeepseekAnalysis prompt 0 oracle =
      { result := sentinelExhausted, attempts := 0, waits := [], reqs := 0, fellThrough := true })
    ∧ (sentinelExhausted ≠ sentinelGeneric ∧ sentinelExhausted ≠ sentinelTimeout
        ∧ sentinelExhausted ≠ sentinelSystem)
    ∧ (∀ prompt m oracle, 1 ≤ m → (getDeepseekAnalysis prompt m oracle).fellThrough = false) := by
  refine ⟨fun prompt oracle => rfl, by decide, ?_⟩
  intro prompt m oracle hm
  exact runFrom_no_fall prompt m m 0 oracle [] 0 (by omega) (by omega)

theorem c10_zero_retries_witness :
    (1 : Nat) ≤ 3 ∧ (getDeepseekAnalysis "p" 3 [HttpOutcome.ok "x"]).fellThrough = false :=
  ⟨by decide, c10_zero_retries.2.2 "p" 3 [HttpOutcome.ok "x"] (by decide)⟩

/-- Claim C4 (amended): the client makes at most `maxRetries` primary
attempts, and the wait inserted after attempt `k` (1-indexed) — that is,
before attempt `k + 1` — equals `2 ^ (k - 1)` seconds, so the waits list
after `a` attempts is `[2^0, ..., 2^(a-2)]`; in the all-HTTP-500 scenario
with `maxRetries = 3`, exactly 3 attempts run with waits of 1s and 2s
between them (not 1s, 2s, 4s) and the generic-failure sentinel is
returned. -/
theorem c4_retry_backoff :
    (∀ prompt m oracle,
      (getDeepseekAnalysis prompt m oracle).attempts ≤ m
      ∧ (getDeepseekAnalysis prompt m oracle).waits
        = (List.range ((getDeepseekAnalysis prompt m oracle).attempts - 1)).map (fun i => 2 ^ i))
    ∧ (getDeepseekAnalysis "p" 3
        [HttpOutcome.badStatus 500, HttpOutcome.badStatus 500,
         HttpOutcome.badStatus 500]).attempts = 3
    ∧ (getDeepseekAnalysis "p" 3
        [HttpOutcome.badStatus 500, HttpOutcome.badStatus 500,
         HttpOutcome.badStatus 500]).waits = [1, 2]
    ∧ (getDeepseekAnalysis "p" 3
        [HttpOutcome.badStatus 500, HttpOutcome.badStatus 500,
         HttpOutcome.badStatus 500]).result = sentinelGeneric := by
  refine ⟨?_, by decide, by decide, by decide⟩
  intro prompt m oracle
  have h := runFrom_waits prompt m m 0 oracle 0 (by omega) (by omega)
  simpa [getDeepseekAnalysis] using h

/-- Claim C4, as stated, is false at the all-HTTP-500 scenario: there are
only two waits (1s and 2s) between the three attempts, not 1s, 2s and 4s. -/
theorem c4_waits_not_124 :
    ¬ (getDeepseekAnalysis "p" 3
        [HttpOutcome.badStatus 500, HttpOutcome.badStatus 500,
         HttpOutcome.badStatus 500]).waits = [1, 2, 4] := by
  decide

set_option maxRecDepth 10000 in
set_option maxHeartbeats 1000000 in
/-- Claim C1 (code bug): the client's failure sentinels do not contain the
substring `failureMarker` that the orchestrator checks for, so a failed
commentary call is NOT detected.  At this failing input (valid snapshot,
no news, HTTP 500 on all three commentary attempts) the claim says
`analyzeMarketTrend` returns fallback content early; instead the pipeline
carries on — the sentinel text itself becomes the commentary, the title
call runs, and tags are generated. -/
theorem c1_sentinel_not_detected :
    strHasSub failureMarker sentinelGeneric = false
    ∧ strHasSub failureMarker sentinelTimeout = false
    ∧ strHasSub failureMarker sentinelSystem = false
    ∧ (analyzeMarketTrend clockEx mdEx [] oracleC1 (TagRandom.failure ["투자"])).commentary
      = sentinelGeneric
    ∧ (analyzeMarketTrend clockEx mdEx [] oracleC1 (TagRandom.failure ["투자"])).tags
      = some ["투자"]
    ∧ (analyzeMarketTrend clockEx mdEx [] oracleC1 (TagRandom.failure ["투자"])).title = "T1" := by
  decide

/-- Claim C5: for every input — valid or not, and under every oracle and
sampler outcome — the result of `analyzeMarketTrend` has a non-empty
title and a non-empty commentary. -/
theorem c5_nonempty_output (clock : Clock) (md : MarketDict) (news : List NewsItem)
    (oracle : List HttpOutcome) (tr : TagRandom) :
    (analyzeMarketTrend clock md news oracle tr).title ≠ ""
    ∧ (analyzeMarketTrend clock md news oracle tr).commentary ≠ "" := by
  simp only [analyzeMarketTrend]
  split
  · split
    · exact ⟨fallbackTitle_ne _ _, fallbackCommentary_ne _ _⟩
    · rename_i hcond
      simp only [Bool.or_eq_true, beq_iff_eq, not_or] at hcond
      refine ⟨?_, hcond.1⟩
      split
      · show createFallbackTitle clock.localDate (fallbackDataOf (preparedOf md news)) ≠ ""
        exact createFallbackTitle_ne _ _
      · rename_i hcond2
        simp only [Bool.or_eq_true, beq_iff_eq, not_or] at hcond2
        exact hcond2.1
  · exact ⟨fallbackTitle_ne _ _, fallbackCommentary_ne _ _⟩

/-- Claim C3 (amended): `analyzeMarketTrend` always yields title and
commentary, but the `tags` key is present only on the success path: the
invalid-snapshot fallback and the commentary-failure fallback (empty or
marker-matching commentary result on a validated snapshot) both carry no
tags (`tags = none`), while a validated snapshot whose commentary call
produces a non-empty, marker-free result yields `tags = some _`. -/
theorem c3_result_fields (clock : Clock) (md : MarketDict) (news : List NewsItem)
    (oracle : List HttpOutcome) (tr : TagRandom) :
    (marketDataValid md = false → (analyzeMarketTrend clock md news oracle tr).tags = none)
    ∧ (marketDataValid md = true →
        ((commentaryCallOf clock md news oracle).result == ""
          || strHasSub failureMarker (commentaryCallOf clock md news oracle).result) = true →
        (analyzeMarketTrend clock md news oracle tr).tags = none)
    ∧ (marketDataValid md = true →
        ((commentaryCallOf clock md news oracle).result == ""
          || strHasSub failureMarker (commentaryCallOf clock md news oracle).result) = false →
        (analyzeMarketTrend clock md news oracle tr).tags.isSome = true) := by
  refine ⟨?_, ?_, ?_⟩
  · intro hv
    simp only [analyzeMarketTrend, hv, Bool.false_eq_true, if_false]
  · intro hv hc
    simp only [analyzeMarketTrend, hv, hc, if_true]
  · intro hv hc
    simp only [analyzeMarketTrend, hv, hc, Bool.false_eq_true, if_false, if_true,
      Option.isSome_some]

set_option maxRecDepth 10000 in
set_option maxHeartbeats 1000000 in
theorem c3_result_fields_witness :
    (analyzeMarketTrend clockEx mdEmpty [] [] (TagRandom.failure ["투자", "경제"])).tags = none
    ∧ (analyzeMarketTrend clockEx mdEx [] [HttpOutcome.ok "", HttpOutcome.ok ""]
        (TagRandom.failure ["투자"])).tags = none
    ∧ (analyzeMarketTrend clockEx mdEx [] [HttpOutcome.ok "h", HttpOutcome.ok "w"]
        (TagRandom.failure ["경제"])).tags.isSome = true :=
  ⟨(c3_result_fields clockEx mdEmpty [] [] (TagRandom.failure ["투자", "경제"])).1 (by decide),
   (c3_result_fields clockEx mdEx [] [HttpOutcome.ok "", HttpOutcome.ok ""]
      (TagRandom.failure ["투자"])).2.1 (by decide) (by decide),
   (c3_result_fields clockEx mdEx [] [HttpOutcome.ok "h", HttpOutcome.ok "w"]
      (TagRandom.failure ["경제"])).2.2 (by decide) (by decide)⟩

/-- Claim C3, as stated, is false: on the invalid-snapshot fallback path
the returned record has no `tags` key. -/
theorem c3_fallback_lacks_tags :
    (analyzeMarketTrend clockEx mdEmpty [] [] (TagRandom.normal [])).tags = none := by
  decide

/-- Claim C7 (amended): on a snapshot missing any required field,
`analyzeMarketTrend` returns early with the no-data generic fallback —
`_create_fallback_content` is called without the snapshot, so the content
never references the fields that are present. -/
theorem c7_invalid_snapshot_generic (clock : Clock) (md : MarketDict) (news : List NewsItem)
    (oracle : List HttpOutcome) (tr : TagRandom) (h : marketDataValid md = false) :
    analyzeMarketTrend clock md news oracle tr =
      { title := "오늘의 시장 동향 분석 - " ++ clock.localDate
        commentary := "시스템 오류로 인해 분석을 완료하지 못했습니다. 잠시 후 다시 시도해 주시기 바랍니다."
        tags := none } := by
  simp only [analyzeMarketTrend, h, Bool.false_eq_true, if_false]
  rfl

theorem c7_invalid_snapshot_generic_witness :
    marketDataValid mdNoDate = false
    ∧ analyzeMarketTrend clockEx mdNoDate [] [] (TagRandom.normal []) =
      { title := "오늘의 시장 동향 분석 - " ++ clockEx.localDate
        commentary := "시스템 오류로 인해 분석을 완료하지 못했습니다. 잠시 후 다시 시도해 주시기 바랍니다."
        tags := none } :=
  ⟨by decide, c7_invalid_snapshot_generic clockEx mdNoDate [] [] (TagRandom.normal []) (by decide)⟩

/-- Claim C7, as stated, is false: with three of the four required fields
present the fallback commentary is still the generic message and
references none of the present fields. -/
theorem c7_partial_fields_ignored :
    mdNoDate.close.isSome = true
    ∧ (analyzeMarketTrend clockEx mdNoDate [] [] (TagRandom.failure [])).commentary
      = "시스템 오류로 인해 분석을 완료하지 못했습니다. 잠시 후 다시 시도해 주시기 바랍니다."
    ∧ strHasSub "현재 환율"
        (analyzeMarketTrend clockEx mdNoDate [] [] (TagRandom.failure [])).commentary = false := by
  decide

/-- Claim C9 (amended): LLM-derived text is asterisk-stripped, sentinels
and templates are asterisk-free, and the numeric renderings contain no
asterisk, so — provided the clock's date string and all news titles are
asterisk-free — both title and commentary of every result are
asterisk-free.  (The proviso on news titles is necessary: fallback
commentary echoes them verbatim.) -/
theorem c9_llm_text_star_free (clock : Clock) (md : MarketDict) (news : List NewsItem)
    (oracle : List HttpOutcome) (tr : TagRandom)
    (hd : noStar clock.localDate = true)
    (hn : ∀ n ∈ news, noStar n.title = true) :
    noStar (analyzeMarketTrend clock md news oracle tr).title = true
    ∧ noStar (analyzeMarketTrend clock md news oracle tr).commentary = true := by
  simp only [analyzeMarketTrend]
  split
  · split
    · constructor
      · exact noStar_fallbackContent_title _ _ hd
      · apply noStar_fallbackContent_commentary
        intro fd hfd ns hns n hmem
        injection hfd with hfd'
        subst hfd'
        have hni : (if news.isEmpty then none else some news : Option (List NewsItem))
            = some ns := hns
        by_cases he : news.isEmpty
        · rw [if_pos he] at hni; cases hni
        · rw [if_neg he] at hni
          injection hni with h2
          subst h2
          exact hn n hmem
    · refine ⟨?_, result_noStar (commentaryPromptOf clock md news) 3 oracle⟩
      split
      · show noStar (createFallbackTitle clock.localDate (fallbackDataOf (preparedOf md news)))
          = true
        exact noStar_createFallbackTitle _ _ hd
      · exact result_noStar
          (createTitleFromCommentaryPrompt clock.kstMonthDay clock.kstTime
            (commentaryCallOf clock md news oracle).result) 3
          (oracle.drop (commentaryCallOf clock md news oracle).reqs)
  · exact ⟨noStar_fallbackContent_title _ _ hd,
      noStar_fallbackContent_commentary _ _ (fun fd hfd => nomatch hfd)⟩

set_option maxRecDepth 10000 in
set_option maxHeartbeats 1000000 in
theorem c9_llm_text_star_free_witness :
    noStar clockEx.localDate = true
    ∧ noStar (analyzeMarketTrend clockEx mdEx [{ title := "환율 급등", content := none }]
        [] (TagRandom.failure [])).title = true
    ∧ noStar (analyzeMarketTrend clockEx mdEx [{ title := "환율 급등", content := none }]
        [] (TagRandom.failure [])).commentary = true :=
  ⟨by decide,
   (c9_llm_text_star_free clockEx mdEx [{ title := "환율 급등", content := none }]
      [] (TagRandom.failure []) (by decide) (by decide)).1,
   (c9_llm_text_star_free clockEx mdEx [{ title := "환율 급등", content := none }]
      [] (TagRandom.failure []) (by decide) (by decide)).2⟩

set_option maxRecDepth 10000 in
set_option maxHeartbeats 1000000 in
/-- Claim C9, as stated, is false: a news title containing an asterisk is
echoed verbatim into the fallback commentary (here the commentary call
returns 200 with an empty body, which the orchestrator treats as a
failure), so the published commentary contains an asterisk. -/
theorem c9_fallback_star_leak :
    noStar (analyzeMarketTrend clockEx mdEx newsStar [HttpOutcome.ok "", HttpOutcome.ok ""]
      (TagRandom.failure [])).commentary = false := by
  decide

/-- Claim C6 (amended): on the normal path the tag list has length at
most 15, no duplicates, and is sorted ascending in the code-point
lexicographic order; on the exception-fallback path the extractor
returns the 3 sampled tags exactly as drawn — still at most 15 and
duplicate-free for every valid sample, but in sampler order, not
necessarily sorted. -/
theorem c6_tag_shape :
    (∀ title content bs,
      (createTagsFromContent title content bs).length ≤ 15
      ∧ (createTagsFromContent title content bs).Nodup
      ∧ List.Sorted strLe (createTagsFromContent title content bs))
    ∧ (∀ s, validDefaultSample s = true →
        (computeTags "" "" (TagRandom.failure s)).length ≤ 15
        ∧ (computeTags "" "" (TagRandom.failure s)).Nodup) := by
  constructor
  · intro title content bs
    haveI htot : IsTotal String strLe := ⟨fun a b => lexLe_total a.data b.data⟩
    haveI htrans : IsTrans String strLe := ⟨fun a b c => lexLe_trans a.data b.data c.data⟩
    unfold createTagsFromContent
    have hnd : (List.insertionSort strLe
        (macroKeywords (titleKeywords title ++ contentKeywords content) ++
          ((bs.flatten ++
              (titleKeywords title ++ contentKeywords content).filter
                (fun w => pyIsUpper w && decide (w.length ≤ 5)) ++
              sectorKeywords (titleKeywords title ++ contentKeywords content)).map
            cleanWord).filter (fun t => decide (1 < t.length))).dedup).Nodup :=
      (List.perm_insertionSort strLe _).symm.nodup (List.nodup_dedup _)
    refine ⟨?_, ?_, ?_⟩
    · exact List.length_take_le _ _
    · exact List.Nodup.sublist (List.take_sublist _ _) hnd
    · exact List.Pairwise.sublist (List.take_sublist _ _)
        (List.sorted_insertionSort strLe _)
  · intro s hs
    simp only [validDefaultSample, decide_eq_true_eq] at hs
    obtain ⟨h1, h2, _⟩ := hs
    exact ⟨by show s.length ≤ 15; omega, h2⟩

theorem c6_tag_shape_witness :
    validDefaultSample ["경제", "주식", "투자"] = true
    ∧ ((computeTags "" "" (TagRandom.failure ["경제", "주식", "투자"])).length ≤ 15
      ∧ (computeTags "" "" (TagRandom.failure ["경제", "주식", "투자"])).Nodup) :=
  ⟨by decide, c6_tag_shape.2 ["경제", "주식", "투자"] (by decide)⟩

/-- Claim C6, as stated, is false: `["투자", "경제", "주식"]` is a valid
outcome of `random.sample(defaultTagPool, 3)`, and on the
exception-fallback path the extractor returns it unsorted. -/
theorem c6_fallback_unsorted :
    validDefaultSample ["투자", "경제", "주식"] = true
    ∧ ¬ List.Sorted strLe (computeTags "t" "c" (TagRandom.failure ["투자", "경제", "주식"])) := by
  constructor
  · decide
  · decide

/-- Claim C8 (amended): the commentary prompt embeds every provided news
item — there is no 5-item cap on this path — each as a title line plus,
when content is present and non-empty, an excerpt of exactly the first
100 characters followed by `"..."`. -/
theorem c8_news_all_embedded (clock : Clock) (md : MarketDict) (news : List NewsItem)
    (item : NewsItem) (hmem : item ∈ news) :
    strHasSub item.title (commentaryPromptOf clock md news) = true
    ∧ (∀ c, item.content = some c → c ≠ "" →
        strHasSub (takeStr 100 c ++ "...") (commentaryPromptOf clock md news) = true
        ∧ (takeStr 100 c).length ≤ 100) := by
  constructor
  · exact sub_commentaryPromptOf clock md news item.title item hmem (title_in_newsLine item)
  · intro c hc hne
    refine ⟨sub_commentaryPromptOf clock md news _ item hmem
      (excerpt_in_newsLine item c hc hne), ?_⟩
    exact List.length_take_le _ _

set_option maxRecDepth 10000 in
set_option maxHeartbeats 1000000 in
theorem c8_news_all_embedded_witness :
    strHasSub "미 연준 발표" (commentaryPromptOf clockEx mdEx newsC8) = true
    ∧ (strHasSub
        (takeStr 100 "연준이 기준금리를 동결했다는 소식에 시장이 반응했다" ++ "...")
        (commentaryPromptOf clockEx mdEx newsC8) = true
      ∧ (takeStr 100 "연준이 기준금리를 동결했다는 소식에 시장이 반응했다").length ≤ 100) :=
  ⟨(c8_news_all_embedded clockEx mdEx newsC8
      { title := "미 연준 발표",
        content := some "연준이 기준금리를 동결했다는 소식에 시장이 반응했다" }
      (by decide)).1,
   (c8_news_all_embedded clockEx mdEx newsC8
      { title := "미 연준 발표",
        content := some "연준이 기준금리를 동결했다는 소식에 시장이 반응했다" }
      (by decide)).2 "연준이 기준금리를 동결했다는 소식에 시장이 반응했다" rfl (by decide)⟩

set_option maxRecDepth 10000 in
set_option maxHeartbeats 1000000 in
/-- Claim C8, as stated, is false: with six news items the commentary
prompt embeds the sixth item too — nothing caps the list at the five
most important items on this path. -/
theorem c8_sixth_news_embedded :
    newsC8.length = 6
    ∧ strHasSub "미 연준 발표" (commentaryPromptOf clockEx mdEx newsC8) = true := by
  exact ⟨by decide, by decide⟩

end BlogKRW
